import Mathlib

/-!
# Verification of bmcd `src/hal/power_controller.rs`

A shallow embedding of the power controller of the bmcd board-management
daemon, together with proofs of the specified properties.

The hardware / kernel interaction is modelled by an explicit trace of
events (platform power-state attribute writes, sleeps, GPIO output-line
sets) plus an explicit hardware state (content of each platform attribute
file, last value driven on each enable line).  Fallible I/O is modelled by
an environment that decides, per platform attribute and per output line,
whether a write succeeds.
-/

namespace PowerCtrl

/-! ## Constants from the source -/

def SYS_LED : String := "/sys/class/leds/fp::power/brightness"

def SYS_LED_2_0_5 : String := "/sys/class/leds/fp:sys/brightness"

def STATUS_LED : String := "/sys/class/leds/fp::status/brightness"

def STATUS_LED_2_0_5 : String := "/sys/class/leds/fp:reset/brightness"

def PORT1_EN : String := "node1-en"

def PORT2_EN : String := "node2-en"

def PORT3_EN : String := "node3-en"

def PORT4_EN : String := "node4-en"

/-! ## Bit decoder and NodeId (from `hal/helpers.rs`, not part of this
source snapshot) -/

/-- Modelled from the spec: `bit_iterator` lives in `src/hal/helpers.rs`,
which is not part of this source snapshot.  The spec's contract: given a
`state` bit-field and a `mask` bit-field, produce a finite, ascending-index
sequence of `(index, desired)` pairs, one per masked bit, with
`desired = bit(state, index)`; it never yields an index outside `0..=3`
(only 4 physical lines exist; mask bits 4–7 are ignored).  The yielded
`desired` is the numeric bit value (`0` or `1`), matching how
`set_power_node` passes it on to `set_mode` and `set_values`. -/
def bit_iterator (node_states node_mask : Nat) : List (Nat × Nat) :=
  (List.range 4).filterMap fun n =>
    if node_mask.testBit n then
      some (n, if node_states.testBit n then 1 else 0)
    else
      none

/-- Modelled from the spec: `NodeId` lives in `src/hal/mod.rs`, which is not
part of this source snapshot.  The spec: an identity for one of exactly four
physical node slots, numbered 1–4, converting losslessly to a one-hot
bit-field `1 <<< (node - 1)`. -/
structure NodeId where
  num : Nat
deriving DecidableEq, Repr

/-- Modelled from the spec: `NodeId::to_bitfield`, the one-hot conversion
`bit = 1 << (node - 1)`. -/
def NodeId.to_bitfield (n : NodeId) : Nat :=
  1 <<< (n.num - 1)

/-! ## Hardware state, events, failure environment -/

/-- Externally observable kernel/hardware state: content last successfully
written to each per-node platform power-state attribute file, and the value
last successfully driven on each GPIO enable line (`none` = never written
by us). -/
structure HwState where
  attrFile : Nat → Option String
  lineVal : Nat → Option Nat

theorem HwState.ext_iff {s t : HwState} :
    s = t ↔ s.attrFile = t.attrFile ∧ s.lineVal = t.lineVal := by
  constructor
  · intro h; subst h; exact ⟨rfl, rfl⟩
  · intro ⟨h₁, h₂⟩; cases s; cases t; simp_all

/-- One observable hardware effect of the controller. -/
inductive Event where
  | attrWrite (path : String) (token : String) : Event
  | sleepMs (ms : Nat) : Event
  | lineSet (idx : Nat) (value : Nat) : Event
deriving DecidableEq, Repr

/-- Errors surfaced by the sequencing operations, tagged with the failing
node id (for the platform attribute write) or line index. -/
inductive PwrError where
  | attrWriteFailure (nodeId : Nat) : PwrError
  | lineSetFailure (idx : Nat) : PwrError
deriving DecidableEq, Repr

/-- Failure environment: decides whether the platform attribute write for a
given node id succeeds and whether setting a given output line succeeds. -/
structure Env where
  attrOk : Nat → Bool
  lineOk : Nat → Bool

/-- The all-success environment (no I/O failures). -/
def Env.allOk : Env :=
  { attrOk := fun _ => true, lineOk := fun _ => true }

/-! ## `set_mode` (the platform power-state announcement) -/

/-- The token `set_mode` writes: `"enabled"` when the node state is
nonzero, `"disabled"` otherwise. -/
def set_mode_token (node_state : Nat) : String :=
  if node_state > 0 then "enabled" else "disabled"

/-- The sysfs path `set_mode` writes to. -/
def set_mode_path (node_id : Nat) : String :=
  "/sys/bus/platform/devices/node" ++ toString node_id ++ "-power/state"

/-! ## State-update helpers (successful effects) -/

/-- Effect on the hardware state of a successful platform attribute write
for node `idx + 1` announcing state `st`. -/
def applyAttr (s : HwState) (idx st : Nat) : HwState :=
  { s with
    attrFile := fun n => if n = idx + 1 then some (set_mode_token st) else s.attrFile n }

/-- Effect on the hardware state of a successful output-line set of line
`idx` to value `st`. -/
def applyLine (s : HwState) (idx st : Nat) : HwState :=
  { s with
    lineVal := fun n => if n = idx then some st else s.lineVal n }

/-- Combined effect of one fully successful per-node update. -/
def applyUpd (s : HwState) (u : Nat × Nat) : HwState :=
  applyLine (applyAttr s u.1 u.2) u.1 u.2

/-- Effect of a fully successful run over a list of per-node updates. -/
def applyUpds (s : HwState) (L : List (Nat × Nat)) : HwState :=
  L.foldl applyUpd s

/-! ## The power sequencer -/

/-- The loop body of `set_power_node`: for each `(idx, state)` pair, write
the platform attribute for node `idx + 1` (`set_mode(idx + 1, state)`,
propagating its error), sleep 100 ms, then set output line `idx`
(propagating its error).  Returns the event trace of performed effects, the
result, and the final hardware state. -/
def run_updates (env : Env) (s : HwState) :
    List (Nat × Nat) → List Event × Except PwrError Unit × HwState
  | [] => ([], Except.ok (), s)
  | (idx, st) :: rest =>
    if env.attrOk (idx + 1) then
      let s₁ := applyAttr s idx st
      if env.lineOk idx then
        let s₂ := applyLine s₁ idx st
        let (t, r, s₃) := run_updates env s₂ rest
        (Event.attrWrite (set_mode_path (idx + 1)) (set_mode_token st) ::
            Event.sleepMs 100 :: Event.lineSet idx st :: t,
          r, s₃)
      else
        ([Event.attrWrite (set_mode_path (idx + 1)) (set_mode_token st),
            Event.sleepMs 100],
          Except.error (PwrError.lineSetFailure idx), s₁)
    else
      ([], Except.error (PwrError.attrWriteFailure (idx + 1)), s)

/-- `PowerController::set_power_node`: decode `(node_states, node_mask)`
with `bit_iterator` and run the two-phase sequence for each yielded pair. -/
def set_power_node (env : Env) (s : HwState) (node_states node_mask : Nat) :
    List Event × Except PwrError Unit × HwState :=
  run_updates env s (bit_iterator node_states node_mask)

/-- `PowerController::reset_node`: power the node off, sleep 1 s, power it
back on; the off-phase error aborts before the sleep and the on-phase. -/
def reset_node (env : Env) (s : HwState) (node : NodeId) :
    List Event × Except PwrError Unit × HwState :=
  let bits := node.to_bitfield
  let (t₁, r₁, s₁) := set_power_node env s 0 bits
  match r₁ with
  | Except.error e => (t₁, Except.error e, s₁)
  | Except.ok _ =>
    let (t₂, r₂, s₂) := set_power_node env s₁ bits bits
    (t₁ ++ Event.sleepMs 1000 :: t₂, r₂, s₂)

/-! ## Construction: `PowerController::new`, the LED path resolver and the
LED operations -/

/-- Modelled from the spec: `load_lines` lives in `src/hal/helpers.rs`,
which is not part of this source snapshot; it builds the name → line table
of an opened GPIO chip.  The table is the only thing `new` consumes, so it
is embedded as a lookup function. -/
structure LineTable where
  find : String → Option Nat

/-- Environment for construction: opening a GPIO line-group device either
fails (`none`) or exposes the chip's line table; `pathExists` is the
filesystem-existence check consulted by the LED path resolver. -/
structure ConstructEnv where
  openChip : String → Option LineTable
  pathExists : String → Bool

/-- Construction failures of `PowerController::new`: the chip device could
not be opened (the error carries the device path as context), or a named
line is absent from the chip's line table. -/
inductive NewError where
  | chipOpenFailure (path : String) : NewError
  | lineNotFound (name : String) : NewError
deriving DecidableEq, Repr

/-- The `PowerController` struct: four output-line handles (index-aligned
`0 ↔ node1 .. 3 ↔ node4`, each holding its resolved line) and the two
indicator paths resolved at construction. -/
structure PowerController where
  enable : Fin 4 → Nat
  sysfs_power : String
  sysfs_reset : String

/-- `fallback_if_not_exist`: keep the primary sysfs path when it exists on
the running system, otherwise substitute the fallback. -/
def fallback_if_not_exist (pathExists : String → Bool) (sysfs fallback : String) :
    String :=
  if ¬ pathExists sysfs then fallback else sysfs

/-- `PowerController::new`: select the chip device by the latching flag,
open it, resolve the four named lines (any missing name is a fatal
construction error), and resolve the two indicator paths. -/
def new (env : ConstructEnv) (is_latching_system : Bool) :
    Except NewError PowerController :=
  let chip1 := if is_latching_system then "/dev/gpiochip1" else "/dev/gpiochip2"
  match env.openChip chip1 with
  | none => Except.error (NewError.chipOpenFailure chip1)
  | some lines =>
    match lines.find PORT1_EN with
    | none => Except.error (NewError.lineNotFound PORT1_EN)
    | some port1 =>
      match lines.find PORT2_EN with
      | none => Except.error (NewError.lineNotFound PORT2_EN)
      | some port2 =>
        match lines.find PORT3_EN with
        | none => Except.error (NewError.lineNotFound PORT3_EN)
        | some port3 =>
          match lines.find PORT4_EN with
          | none => Except.error (NewError.lineNotFound PORT4_EN)
          | some port4 =>
            Except.ok
              { enable := ![port1, port2, port3, port4]
                sysfs_power :=
                  fallback_if_not_exist env.pathExists SYS_LED SYS_LED_2_0_5
                sysfs_reset :=
                  fallback_if_not_exist env.pathExists STATUS_LED STATUS_LED_2_0_5 }

/-- Call-time environment for the LED writes: whether writing a given
sysfs path succeeds now. -/
structure WriteEnv where
  writeOk : String → Bool

/-- `PowerController::power_led`: write `"1"`/`"0"` to the power-LED path
resolved at construction; a failure is reported with the constant
`SYS_LED` path attached as context.  Returns (attempted path, written
token, result). -/
def power_led (w : WriteEnv) (c : PowerController) (isOn : Bool) :
    String × String × Except String Unit :=
  (c.sysfs_power, if isOn then "1" else "0",
    if w.writeOk c.sysfs_power then Except.ok () else Except.error SYS_LED)

/-- `PowerController::status_led`: write `"1"`/`"0"` to the status-LED
path resolved at construction; a failure is reported with the constant
`STATUS_LED` path attached as context. -/
def status_led (w : WriteEnv) (c : PowerController) (isOn : Bool) :
    String × String × Except String Unit :=
  (c.sysfs_reset, if isOn then "1" else "0",
    if w.writeOk c.sysfs_reset then Except.ok () else Except.error STATUS_LED)

/-! ## The expected trace of a successful per-node update -/

/-- The three-event sequence the spec prescribes for one node: platform
attribute write for node `idx + 1`, 100 ms settle delay, line set. -/
def updTrace (u : Nat × Nat) : List Event :=
  [Event.attrWrite (set_mode_path (u.1 + 1)) (set_mode_token u.2),
    Event.sleepMs 100, Event.lineSet u.1 u.2]

/-- The full trace of a successful multi-node call. -/
def updsTrace (L : List (Nat × Nat)) : List Event :=
  L.flatMap updTrace

/-- Population count: the number of set bits of a natural number.  (Every
set bit index `i` of `n` satisfies `i < n` because `2 ^ i ≤ n` and
`i < 2 ^ i`.) -/
def popcount (n : Nat) : Nat :=
  ((List.range n).filter fun i => n.testBit i).length

/-! ## Lemmas about the bit decoder -/

lemma mem_bit_iterator {s m : Nat} {p : Nat × Nat} :
    p ∈ bit_iterator s m ↔
      p.1 < 4 ∧ m.testBit p.1 = true ∧
        p.2 = (if s.testBit p.1 then 1 else 0) := by
  unfold bit_iterator
  rw [List.mem_filterMap]
  constructor
  · rintro ⟨n, hn, h⟩
    rw [List.mem_range] at hn
    by_cases hm : m.testBit n
    · rw [if_pos hm] at h
      cases h
      exact ⟨hn, hm, rfl⟩
    · rw [if_neg hm] at h
      cases h
  · rintro ⟨h₁, h₂, h₃⟩
    refine ⟨p.1, List.mem_range.2 h₁, ?_⟩
    rw [if_pos h₂, ← h₃]

lemma bit_iterator_sorted (s m : Nat) :
    (bit_iterator s m).Pairwise (fun a b => a.1 < b.1) := by
  unfold bit_iterator
  apply List.pairwise_filterMap.2
  apply (List.pairwise_lt_range 4).imp
  intro a b hab x hx y hy
  split at hx <;> cases hx
  split at hy <;> cases hy
  simpa using hab

lemma bit_iterator_eq_map_filter (s m : Nat) :
    bit_iterator s m =
      ((List.range 4).filter fun n => m.testBit n).map
        fun n => (n, if s.testBit n then 1 else 0) := by
  unfold bit_iterator
  induction (List.range 4) with
  | nil => rfl
  | cons a l ih =>
    by_cases h : m.testBit a
    · simp [List.filterMap_cons, List.filter_cons, h, ih]
    · simp [List.filterMap_cons, List.filter_cons, h, ih]

lemma land_15_eq_mod (m : Nat) : m &&& 15 = m % 16 := by
  have h := Nat.and_pow_two_sub_one_eq_mod m 4
  norm_num at h
  exact h

lemma length_filter_range_four (m : Nat) :
    ((List.range 4).filter fun n => m.testBit n).length = popcount (m &&& 15) := by
  rw [land_15_eq_mod]
  have hlt : m % 16 < 16 := Nat.mod_lt _ (by norm_num)
  have hbit : ∀ n < 4, (m % 16).testBit n = m.testBit n := by
    intro n hn
    rw [show (16 : Nat) = 2 ^ 4 by norm_num, Nat.testBit_mod_two_pow]
    simp [hn]
  have hfilter : ((List.range 4).filter fun n => m.testBit n) =
      ((List.range 4).filter fun n => (m % 16).testBit n) := by
    apply List.filter_congr
    intro n hn
    rw [List.mem_range] at hn
    rw [hbit n hn]
  rw [hfilter]
  set x := m % 16 with hx
  clear_value x
  clear hx hbit hfilter
  unfold popcount
  interval_cases x <;> decide

lemma bit_iterator_length (s m : Nat) :
    (bit_iterator s m).length = popcount (m &&& 15) := by
  rw [bit_iterator_eq_map_filter, List.length_map, length_filter_range_four]

/-- The decoder only looks at the low 4 bits of the mask. -/
lemma bit_iterator_land_15 (s m : Nat) :
    bit_iterator s (m &&& 15) = bit_iterator s m := by
  unfold bit_iterator
  apply List.filterMap_congr
  intro n hn
  rw [List.mem_range] at hn
  rw [Nat.testBit_and]
  have h15 : (15 : Nat).testBit n = true := by
    rw [show (15 : Nat) = 2 ^ 4 - 1 by norm_num, Nat.testBit_two_pow_sub_one]
    simpa using hn
  rw [h15, Bool.and_true]

/-! ## Lemmas about the sequencer loop -/

/-- A fully successful run produces exactly the three-step trace for each
update, in list order, returns `ok` and applies all updates. -/
lemma run_updates_ok (env : Env) (L : List (Nat × Nat))
    (h : ∀ u ∈ L, env.attrOk (u.1 + 1) = true ∧ env.lineOk u.1 = true) :
    ∀ s, run_updates env s L = (updsTrace L, Except.ok (), applyUpds s L) := by
  induction L with
  | nil => intro s; rfl
  | cons u L ih =>
    intro s
    obtain ⟨⟨h₁, h₂⟩, hL⟩ := List.forall_mem_cons.1 h
    obtain ⟨idx, st⟩ := u
    simp only [run_updates, h₁, h₂, if_true]
    rw [ih hL]
    simp [updsTrace, updTrace, applyUpds, applyUpd]

/-- Unfolding of the loop on a fully successful head update. -/
lemma run_updates_cons_ok (env : Env) (idx st : Nat) (L : List (Nat × Nat))
    (s : HwState) (h₁ : env.attrOk (idx + 1) = true) (h₂ : env.lineOk idx = true) :
    run_updates env s ((idx, st) :: L) =
      (Event.attrWrite (set_mode_path (idx + 1)) (set_mode_token st) ::
          Event.sleepMs 100 :: Event.lineSet idx st ::
          (run_updates env (applyLine (applyAttr s idx st) idx st) L).1,
        (run_updates env (applyLine (applyAttr s idx st) idx st) L).2.1,
        (run_updates env (applyLine (applyAttr s idx st) idx st) L).2.2) := by
  simp only [run_updates, h₁, h₂, if_true]

/-- Unfolding of the loop when the head's line set fails. -/
lemma run_updates_cons_lineFail (env : Env) (idx st : Nat) (L : List (Nat × Nat))
    (s : HwState) (h₁ : env.attrOk (idx + 1) = true) (h₂ : env.lineOk idx = false) :
    run_updates env s ((idx, st) :: L) =
      ([Event.attrWrite (set_mode_path (idx + 1)) (set_mode_token st),
          Event.sleepMs 100],
        Except.error (PwrError.lineSetFailure idx), applyAttr s idx st) := by
  simp only [run_updates, h₁, h₂, if_true, Bool.false_eq_true, if_false]

/-- Unfolding of the loop when the head's platform attribute write fails. -/
lemma run_updates_cons_attrFail (env : Env) (idx st : Nat) (L : List (Nat × Nat))
    (s : HwState) (h₁ : env.attrOk (idx + 1) = false) :
    run_updates env s ((idx, st) :: L) =
      ([], Except.error (PwrError.attrWriteFailure (idx + 1)), s) := by
  simp only [run_updates, h₁, Bool.false_eq_true, if_false]

/-- Every event a run ever emits is a sleep or one of the two writes
prescribed for some update of the list. -/
lemma mem_run_updates_trace (env : Env) (L : List (Nat × Nat)) :
    ∀ (s : HwState) (e : Event), e ∈ (run_updates env s L).1 →
      e = Event.sleepMs 100 ∨
        ∃ u ∈ L, e = Event.attrWrite (set_mode_path (u.1 + 1)) (set_mode_token u.2) ∨
          e = Event.lineSet u.1 u.2 := by
  induction L with
  | nil => intro s e he; cases he
  | cons u L ih =>
    intro s e he
    obtain ⟨idx, st⟩ := u
    by_cases h₁ : env.attrOk (idx + 1)
    · by_cases h₂ : env.lineOk idx
      · rw [run_updates_cons_ok env idx st L s h₁ h₂] at he
        simp only [List.mem_cons] at he
        rcases he with he | he | he | he
        · exact Or.inr ⟨(idx, st), List.mem_cons_self .., Or.inl he⟩
        · exact Or.inl he
        · exact Or.inr ⟨(idx, st), List.mem_cons_self .., Or.inr he⟩
        · rcases ih _ e he with h | ⟨v, hv, h⟩
          · exact Or.inl h
          · exact Or.inr ⟨v, List.mem_cons_of_mem _ hv, h⟩
      · rw [Bool.not_eq_true] at h₂
        rw [run_updates_cons_lineFail env idx st L s h₁ h₂] at he
        simp only [List.mem_cons] at he
        rcases he with he | he | he
        · exact Or.inr ⟨(idx, st), List.mem_cons_self .., Or.inl he⟩
        · exact Or.inl he
        · cases he
    · rw [Bool.not_eq_true] at h₁
      rw [run_updates_cons_attrFail env idx st L s h₁] at he
      cases he

/-- Abort on a failing platform attribute write: every earlier update's
effects stay applied, the failing node's line is untouched, nothing later
runs. -/
lemma run_updates_attrFail (env : Env) (L₁ : List (Nat × Nat)) (idx st : Nat)
    (L₂ : List (Nat × Nat))
    (hok : ∀ u ∈ L₁, env.attrOk (u.1 + 1) = true ∧ env.lineOk u.1 = true)
    (hfail : env.attrOk (idx + 1) = false) :
    ∀ s, run_updates env s (L₁ ++ (idx, st) :: L₂) =
      (updsTrace L₁, Except.error (PwrError.attrWriteFailure (idx + 1)),
        applyUpds s L₁) := by
  induction L₁ with
  | nil =>
    intro s
    simpa [updsTrace, applyUpds] using run_updates_cons_attrFail env idx st L₂ s hfail
  | cons u L₁ ih =>
    intro s
    obtain ⟨⟨h₁, h₂⟩, hL⟩ := List.forall_mem_cons.1 hok
    obtain ⟨i, v⟩ := u
    rw [List.cons_append, run_updates_cons_ok env i v _ s h₁ h₂, ih hL]
    simp [updsTrace, updTrace, applyUpds, applyUpd]

/-- Abort on a failing output-line set: the failing node's attribute write
and the settle delay did happen, its line set did not, nothing later runs. -/
lemma run_updates_lineFail (env : Env) (L₁ : List (Nat × Nat)) (idx st : Nat)
    (L₂ : List (Nat × Nat))
    (hok : ∀ u ∈ L₁, env.attrOk (u.1 + 1) = true ∧ env.lineOk u.1 = true)
    (hattr : env.attrOk (idx + 1) = true) (hfail : env.lineOk idx = false) :
    ∀ s, run_updates env s (L₁ ++ (idx, st) :: L₂) =
      (updsTrace L₁ ++
          [Event.attrWrite (set_mode_path (idx + 1)) (set_mode_token st),
            Event.sleepMs 100],
        Except.error (PwrError.lineSetFailure idx),
        applyAttr (applyUpds s L₁) idx st) := by
  induction L₁ with
  | nil =>
    intro s
    simpa [updsTrace, applyUpds] using
      run_updates_cons_lineFail env idx st L₂ s hattr hfail
  | cons u L₁ ih =>
    intro s
    obtain ⟨⟨h₁, h₂⟩, hL⟩ := List.forall_mem_cons.1 hok
    obtain ⟨i, v⟩ := u
    rw [List.cons_append, run_updates_cons_ok env i v _ s h₁ h₂, ih hL]
    simp [updsTrace, updTrace, applyUpds, applyUpd]

/-! ## Pointwise characterisation of `applyUpds` and idempotence -/

lemma applyUpds_cons (s : HwState) (u : Nat × Nat) (L : List (Nat × Nat)) :
    applyUpds s (u :: L) = applyUpds (applyUpd s u) L := rfl

lemma applyUpds_attrFile (L : List (Nat × Nat)) :
    ∀ (s : HwState) (n : Nat), (applyUpds s L).attrFile n =
      (match L.reverse.find? (fun u => u.1 + 1 == n) with
        | some u => some (set_mode_token u.2)
        | none => s.attrFile n) := by
  induction L with
  | nil => intro s n; rfl
  | cons u L ih =>
    intro s n
    rw [applyUpds_cons, ih, List.reverse_cons, List.find?_append]
    cases hf : L.reverse.find? (fun u => u.1 + 1 == n) with
    | some v => simp [hf]
    | none =>
      by_cases h : u.1 + 1 = n
      · simp [hf, List.find?, h, applyUpd, applyLine, applyAttr]
      · have hb : (u.1 + 1 == n) = false := by simpa using h
        simp [hf, List.find?, hb, applyUpd, applyLine, applyAttr, Ne.symm h]

lemma applyUpds_lineVal (L : List (Nat × Nat)) :
    ∀ (s : HwState) (n : Nat), (applyUpds s L).lineVal n =
      (match L.reverse.find? (fun u => u.1 == n) with
        | some u => some u.2
        | none => s.lineVal n) := by
  induction L with
  | nil => intro s n; rfl
  | cons u L ih =>
    intro s n
    rw [applyUpds_cons, ih, List.reverse_cons, List.find?_append]
    cases hf : L.reverse.find? (fun u => u.1 == n) with
    | some v => simp [hf]
    | none =>
      by_cases h : u.1 = n
      · simp [hf, List.find?, h, applyUpd, applyLine, applyAttr]
      · have hb : (u.1 == n) = false := by simpa using h
        simp [hf, List.find?, hb, applyUpd, applyLine, applyAttr, Ne.symm h]

/-- Applying the same update list twice gives the same hardware state as
applying it once: every per-node write stores a value that does not depend
on the pre-existing state. -/
lemma applyUpds_idem (L : List (Nat × Nat)) (s : HwState) :
    applyUpds (applyUpds s L) L = applyUpds s L := by
  rw [HwState.ext_iff]
  constructor
  · funext n
    rw [applyUpds_attrFile, applyUpds_attrFile]
    cases hf : L.reverse.find? (fun u => u.1 + 1 == n) with
    | some v => simp
    | none => rfl
  · funext n
    rw [applyUpds_lineVal, applyUpds_lineVal]
    cases hf : L.reverse.find? (fun u => u.1 == n) with
    | some v => simp
    | none => rfl

/-! ## Claim theorems -/

/-- C1: For every call `set_power_node(state, mask)` (here run without
I/O failures, so that every step is reached) and every `(index, desired)`
pair yielded by the bit decoder, the three steps happen in the fixed order
— platform power-state attribute write for node `index + 1`, then the
100 ms delay, then the output-line set to `desired` — and the per-node
sequences execute strictly sequentially in ascending index order: the
whole emitted trace is exactly the concatenation of the per-node
three-step sequences, in decoder order, and the decoder order is strictly
ascending in the index. -/
theorem C1_two_phase_sequencing (s : HwState) (state mask : Nat) :
    (set_power_node Env.allOk s state mask).1 =
        (bit_iterator state mask).flatMap
          (fun u =>
            [Event.attrWrite (set_mode_path (u.1 + 1)) (set_mode_token u.2),
              Event.sleepMs 100, Event.lineSet u.1 u.2]) ∧
      (bit_iterator state mask).Pairwise (fun a b => a.1 < b.1) := by
  constructor
  · rw [set_power_node,
      run_updates_ok Env.allOk (bit_iterator state mask) (fun u _ => ⟨rfl, rfl⟩) s]
    rfl
  · exact bit_iterator_sorted state mask

/-- C4: For all `state` and `mask`, the bit decoder yields a finite
sequence in strictly ascending index order, containing exactly one
`(index, desired)` pair per valid masked bit — so exactly
`popcount(mask & 0x0F)` pairs — with `desired` equal to bit `index` of
`state`; it is a total function of its inputs (no side effects, no failure
mode). -/
theorem C4_bit_decoder_contract (state mask : Nat) :
    (bit_iterator state mask).Pairwise (fun a b => a.1 < b.1) ∧
      (bit_iterator state mask).length = popcount (mask &&& 15) ∧
      (∀ p ∈ bit_iterator state mask,
        mask.testBit p.1 = true ∧
          p.2 = (if state.testBit p.1 then 1 else 0)) ∧
      ∀ n < 4, mask.testBit n = true →
        (n, if state.testBit n then 1 else 0) ∈ bit_iterator state mask := by
  refine ⟨bit_iterator_sorted state mask, bit_iterator_length state mask, ?_, ?_⟩
  · intro p hp
    exact ⟨(mem_bit_iterator.1 hp).2.1, (mem_bit_iterator.1 hp).2.2⟩
  · intro n hn hbit
    exact mem_bit_iterator.2 ⟨hn, hbit, rfl⟩

/-- C4 witness: The contract instantiated at `state = 5`,
`mask = 0b11110101`, where the decoder output is concretely
`[(0, 1), (2, 1)]`. -/
theorem C4_bit_decoder_contract_witness :
    bit_iterator 5 245 = [(0, 1), (2, 1)] ∧
      ((bit_iterator 5 245).Pairwise (fun a b => a.1 < b.1) ∧
        (bit_iterator 5 245).length = popcount (245 &&& 15) ∧
        (∀ p ∈ bit_iterator 5 245,
          (245 : Nat).testBit p.1 = true ∧
            p.2 = (if (5 : Nat).testBit p.1 then 1 else 0)) ∧
        ∀ n < 4, (245 : Nat).testBit n = true →
          (n, if (5 : Nat).testBit n then 1 else 0) ∈ bit_iterator 5 245) :=
  ⟨by decide, C4_bit_decoder_contract 5 245⟩

/-- C5: The decoder never yields an index outside `0–3` even when mask
bits 4–7 are set, every output-line set the sequencer performs is on a
line index `< 4` (so indexing the four line handles is always in bounds),
and the upper mask bits produce no action at all: the whole call behaves
exactly as with `mask & 0x0F`. -/
theorem C5_line_index_in_bounds (env : Env) (s : HwState) (state mask : Nat) :
    (∀ p ∈ bit_iterator state mask, p.1 < 4) ∧
      (∀ idx v, Event.lineSet idx v ∈ (set_power_node env s state mask).1 →
        idx < 4) ∧
      set_power_node env s state (mask &&& 15) = set_power_node env s state mask := by
  refine ⟨fun p hp => (mem_bit_iterator.1 hp).1, ?_, ?_⟩
  · intro idx v hmem
    rcases mem_run_updates_trace env (bit_iterator state mask) s _ hmem with
      h | ⟨u, hu, h | h⟩
    · cases h
    · cases h
    · cases h
      exact (mem_bit_iterator.1 hu).1
  · rw [set_power_node, set_power_node, bit_iterator_land_15]

/-- C5 witness: Instantiated with the all-success environment, a blank
hardware state, `state = 255`, `mask = 0xF0`: no pair is decoded and no
action is taken. -/
theorem C5_line_index_in_bounds_witness :
    ((∀ p ∈ bit_iterator 255 240, p.1 < 4) ∧
      (∀ idx v,
        Event.lineSet idx v ∈
          (set_power_node Env.allOk ⟨fun _ => none, fun _ => none⟩ 255 240).1 →
        idx < 4) ∧
      set_power_node Env.allOk ⟨fun _ => none, fun _ => none⟩ 255 (240 &&& 15) =
        set_power_node Env.allOk ⟨fun _ => none, fun _ => none⟩ 255 240) ∧
      bit_iterator 255 240 = [] :=
  ⟨C5_line_index_in_bounds Env.allOk ⟨fun _ => none, fun _ => none⟩ 255 240,
    by decide⟩

/-- C9: `set_power_node` is idempotent in externally observable
hardware effect: run twice in succession (without I/O failures) with the
same `(state, mask)`, the second call emits exactly the same trace —
including the full write-plus-delay sequence for each masked node — and
leaves every attribute file and output line in the same final state as the
first call. -/
theorem C9_set_power_node_idempotent (s : HwState) (state mask : Nat) :
    (set_power_node Env.allOk
        ((set_power_node Env.allOk s state mask).2.2) state mask).1 =
        (set_power_node Env.allOk s state mask).1 ∧
      (set_power_node Env.allOk
        ((set_power_node Env.allOk s state mask).2.2) state mask).1 =
        updsTrace (bit_iterator state mask) ∧
      (set_power_node Env.allOk
        ((set_power_node Env.allOk s state mask).2.2) state mask).2.1 =
        Except.ok () ∧
      (set_power_node Env.allOk
        ((set_power_node Env.allOk s state mask).2.2) state mask).2.2 =
        (set_power_node Env.allOk s state mask).2.2 := by
  have h := run_updates_ok Env.allOk (bit_iterator state mask)
    (fun u _ => ⟨rfl, rfl⟩)
  rw [set_power_node, set_power_node, h, h]
  exact ⟨rfl, rfl, rfl, applyUpds_idem _ _⟩

/-! ## Concrete objects used by witnesses and counterexamples -/

/-- The blank hardware state: nothing ever written. -/
def blankHw : HwState := ⟨fun _ => none, fun _ => none⟩

/-- Environment in which only the platform attribute write for node 2
fails. -/
def envNode2AttrFails : Env := ⟨fun n => !(n == 2), fun _ => true⟩

/-- Environment in which only the platform attribute write for node 1
fails. -/
def envNode1AttrFails : Env := ⟨fun n => !(n == 1), fun _ => true⟩

/-- Hardware state in which node 1's enable line is driven high (on). -/
def node1OnHw : HwState := ⟨fun _ => none, fun n => if n = 0 then some 1 else none⟩

/-- C2: If, in the decoder's ascending order, every node before some
position succeeded and the node at that position fails, the call aborts
there: on a failing platform-attribute write the emitted trace is exactly
the earlier nodes' full three-step sequences (so no line set for the
failing node and nothing at all for later nodes), the attribute-write
error is returned, and the hardware state keeps exactly the earlier nodes'
effects (no rollback); on a failing output-line set the same holds except
that the failing node's attribute write and settle delay did happen and
its state change is recorded, while its line and all later nodes stay
untouched. -/
theorem C2_abort_no_rollback (env : Env) (s : HwState) (state mask idx st : Nat)
    (L₁ L₂ : List (Nat × Nat))
    (hdec : bit_iterator state mask = L₁ ++ (idx, st) :: L₂)
    (hok : ∀ u ∈ L₁, env.attrOk (u.1 + 1) = true ∧ env.lineOk u.1 = true) :
    (env.attrOk (idx + 1) = false →
      set_power_node env s state mask =
        (updsTrace L₁,
          Except.error (PwrError.attrWriteFailure (idx + 1)),
          applyUpds s L₁)) ∧
      (env.attrOk (idx + 1) = true → env.lineOk idx = false →
        set_power_node env s state mask =
          (updsTrace L₁ ++
              [Event.attrWrite (set_mode_path (idx + 1)) (set_mode_token st),
                Event.sleepMs 100],
            Except.error (PwrError.lineSetFailure idx),
            applyAttr (applyUpds s L₁) idx st)) := by
  constructor
  · intro hfail
    rw [set_power_node, hdec]
    exact run_updates_attrFail env L₁ idx st L₂ hok hfail s
  · intro hattr hfail
    rw [set_power_node, hdec]
    exact run_updates_lineFail env L₁ idx st L₂ hok hattr hfail s

/-- C2 witness: `set_power_node(0b1111, 0b1111)` with the attribute
write for node 2 failing: node 1's full sequence ran and stays applied,
node 2's line was never set, nodes 3 and 4 were never touched. -/
theorem C2_abort_no_rollback_witness :
    bit_iterator 15 15 = [(0, 1)] ++ (1, 1) :: [(2, 1), (3, 1)] ∧
      envNode2AttrFails.attrOk (1 + 1) = false ∧
      set_power_node envNode2AttrFails blankHw 15 15 =
        (updsTrace [(0, 1)],
          Except.error (PwrError.attrWriteFailure (1 + 1)),
          applyUpds blankHw [(0, 1)]) :=
  ⟨by decide, rfl,
    (C2_abort_no_rollback envNode2AttrFails blankHw 15 15 1 1 [(0, 1)]
        [(2, 1), (3, 1)] (by decide) (by decide)).1 rfl⟩

/-- C6: Every platform attribute write performed by `set_power_node`
writes the literal token `"enabled"` (when the desired state is nonzero)
or `"disabled"` (when it is zero) to exactly the path
`/sys/bus/platform/devices/node{N}-power/state` with `N = index + 1`,
`N ∈ 1..4`, for a masked index. -/
theorem C6_platform_attr_write_exact (env : Env) (s : HwState)
    (state mask : Nat) (path tok : String)
    (h : Event.attrWrite path tok ∈ (set_power_node env s state mask).1) :
    ∃ idx < 4, mask.testBit idx = true ∧
      path = "/sys/bus/platform/devices/node" ++ toString (idx + 1) ++
        "-power/state" ∧
      tok = (if state.testBit idx then "enabled" else "disabled") := by
  rcases mem_run_updates_trace env _ s _ h with heq | ⟨u, hu, heq | heq⟩
  · cases heq
  · rcases mem_bit_iterator.1 hu with ⟨h4, hm, hv⟩
    injection heq with hpath htok
    refine ⟨u.1, h4, hm, by rw [hpath]; rfl, ?_⟩
    rw [htok, hv]
    by_cases hb : state.testBit u.1
    · simp [hb, set_mode_token]
    · simp [hb, set_mode_token]
  · cases heq

/-- C6 witness: For `set_power_node(1, 1)` the (single) attribute
write is the token `"enabled"` at `/sys/bus/platform/devices/node1-power/state`. -/
theorem C6_platform_attr_write_exact_witness :
    Event.attrWrite "/sys/bus/platform/devices/node1-power/state" "enabled" ∈
        (set_power_node Env.allOk blankHw 1 1).1 ∧
      ∃ idx < 4, (1 : Nat).testBit idx = true ∧
        "/sys/bus/platform/devices/node1-power/state" =
          "/sys/bus/platform/devices/node" ++ toString (idx + 1) ++
            "-power/state" ∧
        "enabled" = (if (1 : Nat).testBit idx then "enabled" else "disabled") :=
  ⟨by decide,
    C6_platform_attr_write_exact Env.allOk blankHw 1 1 _ _ (by decide)⟩

/-! ## C3: `reset_node` -/

/-- Decoding the off-phase of a reset: state `0`, one-hot mask for node
`k ∈ 1..4`, yields exactly the single pair `(k - 1, 0)`. -/
lemma bit_iterator_zero_one_hot (k : Nat) (hk₁ : 1 ≤ k) (hk₂ : k ≤ 4) :
    bit_iterator 0 (1 <<< (k - 1)) = [(k - 1, 0)] := by
  interval_cases k <;> decide

/-- A failing single-update run never changes any output line. -/
lemma run_updates_single_error (env : Env) (idx st : Nat) (s : HwState)
    (herr : (run_updates env s [(idx, st)]).2.1 ≠ Except.ok ()) :
    (run_updates env s [(idx, st)]).2.2.lineVal = s.lineVal := by
  by_cases h₁ : env.attrOk (idx + 1)
  · by_cases h₂ : env.lineOk idx
    · exfalso
      apply herr
      rw [run_updates_cons_ok env idx st [] s h₁ h₂]
      rfl
    · rw [Bool.not_eq_true] at h₂
      rw [run_updates_cons_lineFail env idx st [] s h₁ h₂]
      rfl
  · rw [Bool.not_eq_true] at h₁
    rw [run_updates_cons_attrFail env idx st [] s h₁]

/-- C3 counterexample: The claim's final clause "leaving the node
powered off" fails on the code: reset node 1 while its enable line is
driven high and the platform attribute write for node 1 fails — the
off-phase returns the error, but the node's line was never touched and
remains high (on), not off. -/
theorem C3_counterexample :
    (reset_node envNode1AttrFails node1OnHw ⟨1⟩).2.1 =
        Except.error (PwrError.attrWriteFailure 1) ∧
      (reset_node envNode1AttrFails node1OnHw ⟨1⟩).2.2.lineVal 0 = some 1 := by
  constructor <;> rfl

/-- C3 amended: For every NodeId `k` (1..=4), `reset_node(k)`
performs exactly, in order: one call `set_power_node(0, 1<<(k-1))`; a
1-second suspension; one call `set_power_node(1<<(k-1), 1<<(k-1))`; and if
the first (off-phase) call returns an error, `reset_node` returns that
error before the 1-second wait and the on-phase call, leaving every
enable line — in particular the node's — unchanged (the node is not
powered back on by this call, though if the failure struck before its
line was toggled the node may still be on). -/
theorem C3_reset_node_sequence (env : Env) (s : HwState) (k : Nat)
    (hk₁ : 1 ≤ k) (hk₂ : k ≤ 4) :
    (NodeId.mk k).to_bitfield = 1 <<< (k - 1) ∧
      (∀ r, (set_power_node env s 0 (1 <<< (k - 1))).2.1 = Except.ok r →
        reset_node env s (NodeId.mk k) =
          ((set_power_node env s 0 (1 <<< (k - 1))).1 ++
              Event.sleepMs 1000 ::
                (set_power_node env (set_power_node env s 0 (1 <<< (k - 1))).2.2
                  (1 <<< (k - 1)) (1 <<< (k - 1))).1,
            (set_power_node env (set_power_node env s 0 (1 <<< (k - 1))).2.2
              (1 <<< (k - 1)) (1 <<< (k - 1))).2)) ∧
      (∀ e, (set_power_node env s 0 (1 <<< (k - 1))).2.1 = Except.error e →
        reset_node env s (NodeId.mk k) =
          ((set_power_node env s 0 (1 <<< (k - 1))).1, Except.error e,
            (set_power_node env s 0 (1 <<< (k - 1))).2.2) ∧
          Event.sleepMs 1000 ∉ (reset_node env s (NodeId.mk k)).1 ∧
          (reset_node env s (NodeId.mk k)).2.2.lineVal = s.lineVal) := by
  have hbits : (NodeId.mk k).to_bitfield = 1 <<< (k - 1) := rfl
  refine ⟨rfl, ?_, ?_⟩
  · intro r hr
    cases r
    rcases hoff : set_power_node env s 0 (1 <<< (k - 1)) with ⟨t₁, r₁, s₁⟩
    rw [hoff] at hr
    simp only at hr
    simp only [reset_node, hbits, hoff, hr]
  · intro e he
    rcases hoff : set_power_node env s 0 (1 <<< (k - 1)) with ⟨t₁, r₁, s₁⟩
    rw [hoff] at he
    simp only at he
    subst he
    have hrn : reset_node env s (NodeId.mk k) = (t₁, Except.error e, s₁) := by
      simp only [reset_node, hbits, hoff]
    refine ⟨hrn, ?_, ?_⟩
    · rw [hrn]
      intro hmem
      have ht₁ : t₁ = (set_power_node env s 0 (1 <<< (k - 1))).1 := by
        rw [hoff]
      rw [ht₁, set_power_node] at hmem
      rcases mem_run_updates_trace env _ s _ hmem with h | ⟨u, _, h | h⟩
      · injection h with h'
        omega
      · cases h
      · cases h
    · rw [hrn]
      have hone := bit_iterator_zero_one_hot k hk₁ hk₂
      have hrun : run_updates env s [(k - 1, 0)] = (t₁, Except.error e, s₁) := by
        rw [← hone, ← set_power_node, hoff]
      have := run_updates_single_error env (k - 1) 0 s
        (by rw [hrun]; intro hcon; cases hcon)
      rw [hrun] at this
      exact this

/-- C3 witness: Reset of node 2 from a blank state with no I/O
failures: the off-phase succeeds and `reset_node` performs off-phase,
1-second sleep, on-phase. -/
theorem C3_reset_node_sequence_witness :
    (set_power_node Env.allOk blankHw 0 (1 <<< (2 - 1))).2.1 = Except.ok () ∧
      ((NodeId.mk 2).to_bitfield = 1 <<< (2 - 1) ∧
        (∀ r,
          (set_power_node Env.allOk blankHw 0 (1 <<< (2 - 1))).2.1 = Except.ok r →
          reset_node Env.allOk blankHw (NodeId.mk 2) =
            ((set_power_node Env.allOk blankHw 0 (1 <<< (2 - 1))).1 ++
                Event.sleepMs 1000 ::
                  (set_power_node Env.allOk
                    (set_power_node Env.allOk blankHw 0 (1 <<< (2 - 1))).2.2
                    (1 <<< (2 - 1)) (1 <<< (2 - 1))).1,
              (set_power_node Env.allOk
                (set_power_node Env.allOk blankHw 0 (1 <<< (2 - 1))).2.2
                (1 <<< (2 - 1)) (1 <<< (2 - 1))).2)) ∧
        (∀ e,
          (set_power_node Env.allOk blankHw 0 (1 <<< (2 - 1))).2.1 =
              Except.error e →
          reset_node Env.allOk blankHw (NodeId.mk 2) =
            ((set_power_node Env.allOk blankHw 0 (1 <<< (2 - 1))).1,
              Except.error e,
              (set_power_node Env.allOk blankHw 0 (1 <<< (2 - 1))).2.2) ∧
            Event.sleepMs 1000 ∉ (reset_node Env.allOk blankHw (NodeId.mk 2)).1 ∧
            (reset_node Env.allOk blankHw (NodeId.mk 2)).2.2.lineVal =
              blankHw.lineVal)) :=
  ⟨rfl, C3_reset_node_sequence Env.allOk blankHw 2 (by decide) (by decide)⟩

/-! ## C7, C8, C10: construction and LEDs -/

/-- A successful construction pins down every field: the chip selected by
the flag was opened, each of the four names resolved, and both indicator
paths went through the fallback resolution. -/
lemma new_ok_fields (env : ConstructEnv) (flag : Bool) (c : PowerController)
    (h : new env flag = Except.ok c) :
    ∃ lines,
      env.openChip (if flag then "/dev/gpiochip1" else "/dev/gpiochip2") =
          some lines ∧
        lines.find PORT1_EN = some (c.enable 0) ∧
        lines.find PORT2_EN = some (c.enable 1) ∧
        lines.find PORT3_EN = some (c.enable 2) ∧
        lines.find PORT4_EN = some (c.enable 3) ∧
        c.sysfs_power = fallback_if_not_exist env.pathExists SYS_LED SYS_LED_2_0_5 ∧
        c.sysfs_reset =
          fallback_if_not_exist env.pathExists STATUS_LED STATUS_LED_2_0_5 := by
  rcases hchip : env.openChip (if flag then "/dev/gpiochip1" else "/dev/gpiochip2")
    with _ | lines
  · rw [new] at h
    simp only [hchip] at h
    cases h
  · rcases h1 : lines.find PORT1_EN with _ | p1
    · rw [new] at h; simp only [hchip, h1] at h; cases h
    · rcases h2 : lines.find PORT2_EN with _ | p2
      · rw [new] at h; simp only [hchip, h1, h2] at h; cases h
      · rcases h3 : lines.find PORT3_EN with _ | p3
        · rw [new] at h; simp only [hchip, h1, h2, h3] at h; cases h
        · rcases h4 : lines.find PORT4_EN with _ | p4
          · rw [new] at h; simp only [hchip, h1, h2, h3, h4] at h; cases h
          · rw [new] at h
            simp only [hchip, h1, h2, h3, h4, Except.ok.injEq] at h
            subst h
            exact ⟨lines, rfl, h1, h2, h3, h4, rfl, rfl⟩

/-- C7: Construction returns an error — so no controller value exists —
exactly when the selected line-group device cannot be opened or one of the
four line names `node1-en..node4-en` is absent from the device's line
table; a successfully constructed controller holds the four resolved
output-line handles (index-aligned with the four names) and the two
resolved indicator paths. -/
theorem C7_construction (env : ConstructEnv) (flag : Bool) :
    (∀ c, new env flag = Except.ok c →
      ∃ lines,
        env.openChip (if flag then "/dev/gpiochip1" else "/dev/gpiochip2") =
            some lines ∧
          lines.find PORT1_EN = some (c.enable 0) ∧
          lines.find PORT2_EN = some (c.enable 1) ∧
          lines.find PORT3_EN = some (c.enable 2) ∧
          lines.find PORT4_EN = some (c.enable 3) ∧
          c.sysfs_power =
            fallback_if_not_exist env.pathExists SYS_LED SYS_LED_2_0_5 ∧
          c.sysfs_reset =
            fallback_if_not_exist env.pathExists STATUS_LED STATUS_LED_2_0_5) ∧
      ((∃ e, new env flag = Except.error e) ↔
        env.openChip (if flag then "/dev/gpiochip1" else "/dev/gpiochip2") =
            none ∨
          ∃ lines,
            env.openChip (if flag then "/dev/gpiochip1" else "/dev/gpiochip2") =
                some lines ∧
              (lines.find PORT1_EN = none ∨ lines.find PORT2_EN = none ∨
                lines.find PORT3_EN = none ∨ lines.find PORT4_EN = none)) := by
  refine ⟨fun c h => new_ok_fields env flag c h, ?_⟩
  rcases hchip : env.openChip (if flag then "/dev/gpiochip1" else "/dev/gpiochip2")
    with _ | lines
  · constructor
    · intro _; exact Or.inl rfl
    · intro _
      exact ⟨NewError.chipOpenFailure (if flag then "/dev/gpiochip1" else "/dev/gpiochip2"),
        by rw [new]; simp only [hchip]⟩
  · constructor
    · rintro ⟨e, he⟩
      rw [new] at he
      simp only [hchip] at he
      rcases h1 : lines.find PORT1_EN with _ | p1
      · exact Or.inr ⟨lines, rfl, Or.inl h1⟩
      · rw [h1] at he
        rcases h2 : lines.find PORT2_EN with _ | p2
        · exact Or.inr ⟨lines, rfl, Or.inr (Or.inl h2)⟩
        · rw [h2] at he
          rcases h3 : lines.find PORT3_EN with _ | p3
          · exact Or.inr ⟨lines, rfl, Or.inr (Or.inr (Or.inl h3))⟩
          · rw [h3] at he
            rcases h4 : lines.find PORT4_EN with _ | p4
            · exact Or.inr ⟨lines, rfl, Or.inr (Or.inr (Or.inr h4))⟩
            · rw [h4] at he
              cases he
    · rintro (h | ⟨lines', hl, hmiss⟩)
      · cases h
      · injection hl with hl
        subst hl
        rw [new]
        simp only [hchip]
        rcases hmiss with h1 | h2 | h3 | h4
        · rw [h1]; exact ⟨_, rfl⟩
        · rcases h1 : lines.find PORT1_EN with _ | p1
          · exact ⟨_, rfl⟩
          · rw [h2]; exact ⟨_, rfl⟩
        · rcases h1 : lines.find PORT1_EN with _ | p1
          · exact ⟨_, rfl⟩
          · rcases h2 : lines.find PORT2_EN with _ | p2
            · exact ⟨_, rfl⟩
            · rw [h3]; exact ⟨_, rfl⟩
        · rcases h1 : lines.find PORT1_EN with _ | p1
          · exact ⟨_, rfl⟩
          · rcases h2 : lines.find PORT2_EN with _ | p2
            · exact ⟨_, rfl⟩
            · rcases h3 : lines.find PORT3_EN with _ | p3
              · exact ⟨_, rfl⟩
              · rw [h4]; exact ⟨_, rfl⟩

/-- A construction environment whose chip has all four lines at offsets
10–13 and where every filesystem path exists. -/
def envGood : ConstructEnv :=
  ⟨fun _ =>
    some ⟨fun nm =>
      if nm == PORT1_EN then some 10
      else if nm == PORT2_EN then some 11
      else if nm == PORT3_EN then some 12
      else if nm == PORT4_EN then some 13
      else none⟩,
    fun _ => true⟩

/-- C7 witness: On `envGood` with the latching flag set, construction
succeeds with the four resolved handles and the two primary LED paths. -/
theorem C7_construction_witness :
    new envGood true =
        Except.ok
          { enable := ![10, 11, 12, 13]
            sysfs_power := SYS_LED
            sysfs_reset := STATUS_LED } ∧
      ((∀ c, new envGood true = Except.ok c →
        ∃ lines,
          envGood.openChip (if true then "/dev/gpiochip1" else "/dev/gpiochip2") =
              some lines ∧
            lines.find PORT1_EN = some (c.enable 0) ∧
            lines.find PORT2_EN = some (c.enable 1) ∧
            lines.find PORT3_EN = some (c.enable 2) ∧
            lines.find PORT4_EN = some (c.enable 3) ∧
            c.sysfs_power =
              fallback_if_not_exist envGood.pathExists SYS_LED SYS_LED_2_0_5 ∧
            c.sysfs_reset =
              fallback_if_not_exist envGood.pathExists STATUS_LED STATUS_LED_2_0_5) ∧
        ((∃ e, new envGood true = Except.error e) ↔
          envGood.openChip (if true then "/dev/gpiochip1" else "/dev/gpiochip2") =
              none ∨
            ∃ lines,
              envGood.openChip
                  (if true then "/dev/gpiochip1" else "/dev/gpiochip2") =
                  some lines ∧
                (lines.find PORT1_EN = none ∨ lines.find PORT2_EN = none ∨
                  lines.find PORT3_EN = none ∨ lines.find PORT4_EN = none))) :=
  ⟨rfl, C7_construction envGood true⟩

/-- C8: The LED path resolver selects the primary path whenever the
primary exists — regardless of anything else, in particular of the
fallback's existence — and the fallback when the primary does not exist;
the choice is a pure function of the primary's existence at construction
time, and a constructed controller's LED operations keep targeting the
construction-time resolution whatever happens to the filesystem later. -/
theorem C8_led_path_resolution (pathExists : String → Bool)
    (primary fallback : String) :
    (pathExists primary = true →
      fallback_if_not_exist pathExists primary fallback = primary) ∧
      (pathExists primary = false →
        fallback_if_not_exist pathExists primary fallback = fallback) ∧
      (∀ pathExists₂ : String → Bool, pathExists₂ primary = pathExists primary →
        fallback_if_not_exist pathExists₂ primary fallback =
          fallback_if_not_exist pathExists primary fallback) ∧
      (∀ (env : ConstructEnv) (flag : Bool) (c : PowerController)
          (w : WriteEnv) (isOn : Bool),
        new env flag = Except.ok c →
          (power_led w c isOn).1 =
              fallback_if_not_exist env.pathExists SYS_LED SYS_LED_2_0_5 ∧
            (status_led w c isOn).1 =
              fallback_if_not_exist env.pathExists STATUS_LED STATUS_LED_2_0_5) := by
  refine ⟨?_, ?_, ?_, ?_⟩
  · intro h
    rw [fallback_if_not_exist, if_neg]
    simp [h]
  · intro h
    rw [fallback_if_not_exist, if_pos]
    simp [h]
  · intro pathExists₂ h
    rw [fallback_if_not_exist, fallback_if_not_exist, h]
  · intro env flag c w isOn h
    obtain ⟨_, _, _, _, _, _, hp, hr⟩ := new_ok_fields env flag c h
    exact ⟨hp, hr⟩

/-- C8 witness: With a filesystem on which exactly the primary power
LED path exists, the resolver picks the primary; instantiating the general
theorem at that filesystem. -/
theorem C8_led_path_resolution_witness :
    fallback_if_not_exist (fun p => p == SYS_LED) SYS_LED SYS_LED_2_0_5 =
        SYS_LED ∧
      (((fun p : String => p == SYS_LED) SYS_LED = true →
        fallback_if_not_exist (fun p => p == SYS_LED) SYS_LED SYS_LED_2_0_5 =
          SYS_LED) ∧
        ((fun p : String => p == SYS_LED) SYS_LED = false →
          fallback_if_not_exist (fun p => p == SYS_LED) SYS_LED SYS_LED_2_0_5 =
            SYS_LED_2_0_5) ∧
        (∀ pathExists₂ : String → Bool,
          pathExists₂ SYS_LED = (fun p : String => p == SYS_LED) SYS_LED →
          fallback_if_not_exist pathExists₂ SYS_LED SYS_LED_2_0_5 =
            fallback_if_not_exist (fun p => p == SYS_LED) SYS_LED SYS_LED_2_0_5) ∧
        (∀ (env : ConstructEnv) (flag : Bool) (c : PowerController)
            (w : WriteEnv) (isOn : Bool),
          new env flag = Except.ok c →
            (power_led w c isOn).1 =
                fallback_if_not_exist env.pathExists SYS_LED SYS_LED_2_0_5 ∧
              (status_led w c isOn).1 =
                fallback_if_not_exist env.pathExists STATUS_LED STATUS_LED_2_0_5)) :=
  ⟨by decide, C8_led_path_resolution (fun p => p == SYS_LED) SYS_LED SYS_LED_2_0_5⟩

/-- A construction environment on which no filesystem path exists, so both
indicator paths resolve to their fallbacks. -/
def envNoLedPaths : ConstructEnv :=
  ⟨fun _ => some ⟨fun _ => some 0⟩, fun _ => false⟩

/-- The controller `new envNoLedPaths false` constructs: both indicator
paths are the 2.0.5 fallbacks. -/
def cFallbackLeds : PowerController :=
  { enable := ![0, 0, 0, 0], sysfs_power := SYS_LED_2_0_5,
    sysfs_reset := STATUS_LED_2_0_5 }

/-- C10: A failing `power_led` (resp. `status_led`) call always
attaches the primary constant path `SYS_LED` (resp. `STATUS_LED`) as the
error's diagnostic context, even though the write is attempted on the
construction-resolved path — and there is a constructible controller whose
resolved paths are the fallbacks, so the path named in the error differs
from the path written. -/
theorem C10_led_error_context (w : WriteEnv) (c : PowerController) (isOn : Bool) :
    ((power_led w c isOn).1 = c.sysfs_power ∧
      (status_led w c isOn).1 = c.sysfs_reset) ∧
      (∀ e, (power_led w c isOn).2.2 = Except.error e → e = SYS_LED) ∧
      (∀ e, (status_led w c isOn).2.2 = Except.error e → e = STATUS_LED) ∧
      ∃ (env : ConstructEnv) (c' : PowerController),
        new env false = Except.ok c' ∧
          (power_led w c' isOn).1 = SYS_LED_2_0_5 ∧
          (status_led w c' isOn).1 = STATUS_LED_2_0_5 ∧
          SYS_LED_2_0_5 ≠ SYS_LED ∧ STATUS_LED_2_0_5 ≠ STATUS_LED := by
  refine ⟨⟨rfl, rfl⟩, ?_, ?_, ?_⟩
  · intro e he
    rw [power_led] at he
    by_cases hw : w.writeOk c.sysfs_power
    · rw [if_pos hw] at he; cases he
    · rw [if_neg hw] at he
      injection he with he
      exact he.symm
  · intro e he
    rw [status_led] at he
    by_cases hw : w.writeOk c.sysfs_reset
    · rw [if_pos hw] at he; cases he
    · rw [if_neg hw] at he
      injection he with he
      exact he.symm
  · exact ⟨envNoLedPaths, cFallbackLeds, rfl, rfl, rfl, by decide, by decide⟩

/-- An LED write environment in which every write fails. -/
def wAllFail : WriteEnv := ⟨fun _ => false⟩

/-- C10 witness: On the fallback-resolved controller with every write
failing, `power_led` attempts the fallback path but reports the primary
`SYS_LED` in the error. -/
theorem C10_led_error_context_witness :
    power_led wAllFail cFallbackLeds true =
        (SYS_LED_2_0_5, "1", Except.error SYS_LED) ∧
      (((power_led wAllFail cFallbackLeds true).1 = cFallbackLeds.sysfs_power ∧
        (status_led wAllFail cFallbackLeds true).1 = cFallbackLeds.sysfs_reset) ∧
        (∀ e, (power_led wAllFail cFallbackLeds true).2.2 = Except.error e →
          e = SYS_LED) ∧
        (∀ e, (status_led wAllFail cFallbackLeds true).2.2 = Except.error e →
          e = STATUS_LED) ∧
        ∃ (env : ConstructEnv) (c' : PowerController),
          new env false = Except.ok c' ∧
            (power_led wAllFail c' true).1 = SYS_LED_2_0_5 ∧
            (status_led wAllFail c' true).1 = STATUS_LED_2_0_5 ∧
            SYS_LED_2_0_5 ≠ SYS_LED ∧ STATUS_LED_2_0_5 ≠ STATUS_LED) :=
  ⟨rfl, C10_led_error_context wAllFail cFallbackLeds true⟩

end PowerCtrl
